import Mathlib

/-!
Verification of the Claude-Code-Usage-Monitor core calculations.

Shallow embedding of the token-monitoring core:
* `src/claude_monitor.py` — terminal layer: `calculate_hourly_burn_rate`,
  `get_token_limit`, `process_token_data`, `calculate_predictions`,
  `update_notification_state`.
* `src/usage_analyzer/services/monitor_service.py` — web-service layer:
  `MonitorService._calculate_hourly_burn_rate`, `MonitorService._get_token_limit`,
  and the auto-switch logic inside `MonitorService.get_current_status`.
* `src/usage_analyzer/core/notification_manager.py` —
  `NotificationManager.should_show_notification`.

Modelling conventions: timestamps are rationals counting seconds (datetime
subtraction followed by `.total_seconds() / 60` becomes subtraction and
division by 60); token counts are naturals (the analyzer produces nonnegative
integer token counts; the spec declares negative counts a caller contract
violation); Python `None` becomes `Option`; a code path that would raise
(`None` minus a datetime) returns `none` in an `Option` result.
-/

/-- A usage block as consumed by the monitor: the dict keys `startTime`,
`isGap`, `isActive`, `actualEndTime`, `totalTokens`.  `Option` models a
missing or `None` entry; timestamps are in seconds. -/
structure UsageBlock where
  startTime : Option ℚ
  isGap : Bool
  isActive : Bool
  actualEndTime : Option ℚ
  totalTokens : ℕ
  deriving DecidableEq, Repr

/-- Effective end of a session, from `calculate_hourly_burn_rate`:
`current_time` for an active block, else `actualEndTime` when present,
else `current_time`. -/
def effectiveEnd (b : UsageBlock) (current_time : ℚ) : ℚ :=
  if b.isActive then current_time
  else
    match b.actualEndTime with
    | some e => e
    | none => current_time

/-- One loop iteration of `calculate_hourly_burn_rate`
(`src/claude_monitor.py:157-227`): the tokens this block contributes to the
trailing hour.  Blocks with no `startTime` are skipped, gaps are skipped,
blocks fully before the window are skipped, and the proportional share
`totalTokens * (hour_duration / total_session_duration)` is only taken when
the total duration is positive. -/
def blockContribution (b : UsageBlock) (current_time : ℚ) : ℚ :=
  match b.startTime with
  | none => 0
  | some start_time =>
    if b.isGap then 0
    else
      let session_actual_end := effectiveEnd b current_time
      let one_hour_ago := current_time - 3600
      if session_actual_end < one_hour_ago then 0
      else
        let session_start_in_hour := max start_time one_hour_ago
        let session_end_in_hour := min session_actual_end current_time
        if session_end_in_hour ≤ session_start_in_hour then 0
        else
          let total_session_duration := (session_actual_end - start_time) / 60
          let hour_duration := (session_end_in_hour - session_start_in_hour) / 60
          if 0 < total_session_duration then
            (b.totalTokens : ℚ) * (hour_duration / total_session_duration)
          else 0

/-- `calculate_hourly_burn_rate(blocks, current_time)` from
`src/claude_monitor.py`.  `none` models a `None` blocks argument; the Python
`if not blocks` guard also covers the empty list.  Returns tokens per
minute. -/
def calculate_hourly_burn_rate (blocks : Option (List UsageBlock))
    (current_time : ℚ) : ℚ :=
  match blocks with
  | none => 0
  | some bs =>
    if bs = [] then 0
    else
      let total_tokens := (bs.map (fun b => blockContribution b current_time)).sum
      if 0 < total_tokens then total_tokens / 60 else 0

/-- Overlap, in minutes, of the interval `[s, e]` with the window `[ws, we]`,
as the spec describes it: `min e we - max s ws`, converted to minutes. -/
def overlapMinutes (s e ws we : ℚ) : ℚ :=
  (min e we - max s ws) / 60

/-- The spec's qualifying conditions for a block to contribute to the hourly
burn rate: it has a start time, is not a gap, its effective end is not
earlier than `now - 60min`, its overlap with the window is strictly
positive, and its total duration is strictly positive. -/
def blockQualifies (b : UsageBlock) (now : ℚ) : Bool :=
  match b.startTime with
  | none => false
  | some st =>
    let e := effectiveEnd b now
    decide (¬ b.isGap = true ∧ now - 3600 ≤ e
      ∧ 0 < overlapMinutes st e (now - 3600) now ∧ 0 < (e - st) / 60)

/-- The spec's per-block token share:
`total_tokens * (overlap_minutes / total_duration_minutes)`. -/
def specContribution (b : UsageBlock) (now : ℚ) : ℚ :=
  match b.startTime with
  | none => 0
  | some st =>
    let e := effectiveEnd b now
    (b.totalTokens : ℚ) * (overlapMinutes st e (now - 3600) now / ((e - st) / 60))

theorem sum_map_ite {α : Type} (p : α → Bool) (f : α → ℚ) (l : List α) :
    (l.map (fun a => if p a then f a else 0)).sum
      = ((l.filter p).map f).sum := by
  induction l with
  | nil => simp
  | cons a l ih =>
    by_cases h : p a <;> simp [List.filter_cons, h, ih]

theorem div60_pos_iff (x : ℚ) : 0 < x / 60 ↔ 0 < x := by
  constructor
  · intro h
    by_contra hx
    push_neg at hx
    have : x / 60 ≤ 0 := div_nonpos_of_nonpos_of_nonneg hx (by norm_num)
    linarith
  · intro h
    exact div_pos h (by norm_num)

theorem blockContribution_eq_ite (b : UsageBlock) (now : ℚ) :
    blockContribution b now
      = if blockQualifies b now then specContribution b now else 0 := by
  unfold blockContribution blockQualifies specContribution overlapMinutes
  cases hst : b.startTime with
  | none => simp
  | some st =>
    simp only [decide_eq_true_eq]
    by_cases hgap : b.isGap = true
    · rw [if_pos hgap, if_neg (fun h => h.1 hgap)]
    · rw [if_neg hgap]
      by_cases hend : effectiveEnd b now < now - 3600
      · rw [if_pos hend, if_neg (fun h => absurd h.2.1 (not_le.mpr hend))]
      · rw [if_neg hend]
        by_cases hov : min (effectiveEnd b now) now ≤ max st (now - 3600)
        · rw [if_pos hov, if_neg ?_]
          intro h
          have h2 := (div60_pos_iff _).mp h.2.2.1
          linarith
        · rw [if_neg hov]
          push_neg at hov
          by_cases hdur : 0 < (effectiveEnd b now - st) / 60
          · rw [if_pos hdur, if_pos
              ⟨hgap, not_lt.mp hend, (div60_pos_iff _).mpr (by linarith), hdur⟩]
          · rw [if_neg hdur, if_neg (fun h => hdur h.2.2.2)]

theorem blockContribution_nonneg (b : UsageBlock) (now : ℚ) :
    0 ≤ blockContribution b now := by
  rw [blockContribution_eq_ite]
  by_cases h : blockQualifies b now = true
  · rw [if_pos h]
    unfold blockQualifies at h
    cases hst : b.startTime with
    | none => rw [hst] at h; simp at h
    | some st =>
      rw [hst] at h
      simp only [decide_eq_true_eq] at h
      unfold specContribution
      rw [hst]
      have hov := h.2.2.1
      have hdur := h.2.2.2
      exact mul_nonneg (Nat.cast_nonneg _) (le_of_lt (div_pos hov hdur))
  · rw [if_neg h]

/-- One loop iteration of `MonitorService._calculate_hourly_burn_rate`
(`src/usage_analyzer/services/monitor_service.py:188-222`): the accumulator is
`(total_tokens, earliest_time)`.  Only active blocks with a start time at or
after `one_hour_ago` contribute; their tokens are added whole and the
earliest such start is tracked. -/
def svcBurnStep (one_hour_ago : ℚ) (acc : ℕ × ℚ) (b : UsageBlock) : ℕ × ℚ :=
  if ¬ b.isActive then acc
  else
    match b.startTime with
    | none => acc
    | some start_time =>
      if one_hour_ago ≤ start_time then
        (acc.1 + b.totalTokens,
          if start_time < acc.2 then start_time else acc.2)
      else acc

/-- `MonitorService._calculate_hourly_burn_rate(blocks, current_time)`:
sums the tokens of active blocks started within the last hour and divides by
the minutes elapsed since the earliest such start. -/
def MonitorService_calculate_hourly_burn_rate (blocks : List UsageBlock)
    (current_time : ℚ) : ℚ :=
  let one_hour_ago := current_time - 3600
  let acc := blocks.foldl (svcBurnStep one_hour_ago) (0, current_time)
  if acc.1 = 0 ∨ current_time ≤ acc.2 then 0
  else
    let elapsed_minutes := (current_time - acc.2) / 60
    if 0 < elapsed_minutes then (acc.1 : ℚ) / elapsed_minutes else 0

/-- The plan names accepted by both layers (`--plan` choices in
`parse_args`, and the `plan` strings of `MonitorService`). -/
inductive Plan where
  | pro
  | max5
  | max20
  | custom_max
  deriving DecidableEq, Repr

/-- The scan inside `get_token_limit` for `custom_max`
(`src/claude_monitor.py:271-285`): running maximum of `totalTokens` over
blocks that are neither gaps nor active, starting from 0. -/
def maxNonGapNonActiveTokens (blocks : List UsageBlock) : ℕ :=
  blocks.foldl
    (fun max_tokens b =>
      if ¬ b.isGap = true ∧ ¬ b.isActive = true ∧ max_tokens < b.totalTokens
      then b.totalTokens else max_tokens)
    0

/-- `get_token_limit(plan, blocks)` from `src/claude_monitor.py`: static table
`{pro: 44000, max5: 220000, max20: 880000}` (default 44000); for
`custom_max` with a truthy (non-`None`, non-empty) blocks list, the maximum
`totalTokens` over non-gap non-active blocks, falling back to the `pro`
value when that maximum is 0. -/
def get_token_limit (plan : Plan) (blocks : Option (List UsageBlock)) : ℕ :=
  if plan = Plan.custom_max ∧ blocks.getD [] ≠ [] then
    let max_tokens := maxNonGapNonActiveTokens (blocks.getD [])
    if 0 < max_tokens then max_tokens else 44000
  else
    match plan with
    | Plan.pro => 44000
    | Plan.max5 => 220000
    | Plan.max20 => 880000
    | Plan.custom_max => 44000

/-- The scan inside `MonitorService._get_token_limit` for `custom_max`
(`src/usage_analyzer/services/monitor_service.py:172-186`): running maximum
of `totalTokens` over ALL blocks — no gap or active filtering. -/
def maxAllTokens (blocks : List UsageBlock) : ℕ :=
  blocks.foldl
    (fun max_tokens b =>
      if max_tokens < b.totalTokens then b.totalTokens else max_tokens)
    0

/-- `MonitorService._get_token_limit(plan, blocks)`: static table
`{pro: 7000, max5: 35000, max20: 140000}` (default `pro`); for `custom_max`
with a truthy blocks list, the maximum `totalTokens` over all blocks with a
10% buffer — the Python `int(max_tokens * 1.1)` is modelled as
`11 * max_tokens / 10` with truncating natural division — falling back to
the `pro` value when the maximum is 0. -/
def MonitorService_get_token_limit (plan : Plan)
    (blocks : Option (List UsageBlock)) : ℕ :=
  if plan = Plan.custom_max ∧ blocks.getD [] ≠ [] then
    let max_tokens := maxAllTokens (blocks.getD [])
    if 0 < max_tokens then 11 * max_tokens / 10 else 7000
  else
    match plan with
    | Plan.pro => 7000
    | Plan.max5 => 35000
    | Plan.max20 => 140000
    | Plan.custom_max => 7000

/-- Result record of `process_token_data` (`src/claude_monitor.py:342-360`). -/
structure TokenData where
  tokens_used : ℕ
  token_limit : ℕ
  original_limit : ℕ
  tokens_left : ℤ
  usage_percentage : ℚ
  deriving DecidableEq, Repr

/-- `process_token_data(active_block, args, blocks, token_limit)`: reads the
active block's `totalTokens`, re-resolves the originally requested plan's
limit, switches to the `custom_max` limit when the tokens used exceed the
passed-in limit and the plan is not already `custom_max`, clamps the
remaining tokens at zero, and computes the usage percentage (0 when the
limit is 0). -/
def process_token_data (active_block : UsageBlock) (plan : Plan)
    (blocks : Option (List UsageBlock)) (token_limit : ℕ) : TokenData :=
  let tokens_used := active_block.totalTokens
  let original_limit := get_token_limit plan none
  let token_limit :=
    if token_limit < tokens_used ∧ plan ≠ Plan.custom_max
    then get_token_limit Plan.custom_max blocks
    else token_limit
  { tokens_used := tokens_used
    token_limit := token_limit
    original_limit := original_limit
    tokens_left := max 0 ((token_limit : ℤ) - (tokens_used : ℤ))
    usage_percentage :=
      if token_limit ≠ 0 then (tokens_used : ℚ) / (token_limit : ℚ) * 100 else 0 }

/-- The auto-switch step of `MonitorService.get_current_status`
(`src/usage_analyzer/services/monitor_service.py:67-77`): resolve the
requested plan's limit (passing the blocks only for `custom_max`), and when
the tokens used exceed it and the plan is not `custom_max`, adopt the
`custom_max` limit only if it is strictly greater.  Returns the effective
token limit. -/
def MonitorService_effective_limit (tokens_used : ℕ) (plan : Plan)
    (blocks : List UsageBlock) : ℕ :=
  let blocks_for_custom :=
    if plan = Plan.custom_max then some blocks else none
  let token_limit := MonitorService_get_token_limit plan blocks_for_custom
  if token_limit < tokens_used ∧ plan ≠ Plan.custom_max then
    let new_limit := MonitorService_get_token_limit Plan.custom_max (some blocks)
    if token_limit < new_limit then new_limit else token_limit
  else token_limit

/-- The predicted-end computation of `calculate_predictions`
(`src/claude_monitor.py:391-414`), which the service layer
(`monitor_service.py:111-116`) repeats verbatim: with a positive burn rate
and positive tokens left, project `tokens_left / burn_rate` minutes ahead of
`current_time`; otherwise fall back to `reset_time`.  Times are in seconds,
so a minute is 60. -/
def calculate_predictions (current_time reset_time : ℚ)
    (burn_rate : ℚ) (tokens_left : ℚ) : ℚ :=
  if 0 < burn_rate ∧ 0 < tokens_left then
    let minutes_to_depletion := tokens_left / burn_rate
    current_time + 60 * minutes_to_depletion
  else reset_time

/-- One notification kind's stored state: the dict
`{"triggered": ..., "timestamp": ...}` of `notification_states` in
`src/claude_monitor.py` and of `NotificationManager._states`. -/
structure NotificationState where
  triggered : Bool
  timestamp : Option ℚ
  deriving DecidableEq, Repr

/-- The initial state of every notification kind:
`{"triggered": False, "timestamp": None}`. -/
def initialNotificationState : NotificationState :=
  { triggered := false, timestamp := none }

/-- `update_notification_state(notification_type, condition_met,
current_time)` from `src/claude_monitor.py:37-59`, acting on one kind's
state; `NotificationManager.should_show_notification` runs the identical
logic per kind.  Returns `(show, new_state)`.  The result is `none` exactly
on the state `triggered = true, timestamp = None`, where the Python
`current_time - state["timestamp"]` would raise a `TypeError`; that state is
unreachable from the initial state.  `NOTIFICATION_MIN_DURATION = 5`
seconds. -/
def update_notification_state (state : NotificationState)
    (condition_met : Bool) (current_time : ℚ) :
    Option (Bool × NotificationState) :=
  if condition_met then
    if ¬ state.triggered = true then
      some (true, { triggered := true, timestamp := some current_time })
    else
      some (true, state)
  else
    if state.triggered then
      match state.timestamp with
      | none => none
      | some ts =>
        if (5 : ℚ) ≤ current_time - ts then
          some (false, { triggered := false, timestamp := none })
        else
          some (true, state)
    else
      some (false, state)

/-- `NotificationManager._states` (`notification_manager.py:18-24`): one
`NotificationState` per known kind. -/
structure NotificationManager where
  switch_to_custom : NotificationState
  exceed_max_limit : NotificationState
  tokens_will_run_out : NotificationState
  deriving DecidableEq, Repr

/-- The keys of `NotificationManager._states`. -/
def knownNotificationTypes : List String :=
  ["switch_to_custom", "exceed_max_limit", "tokens_will_run_out"]

/-- `NotificationManager.should_show_notification(notification_type,
condition_met, current_time)` (`notification_manager.py:26-70`): an unknown
notification type returns `False` and touches no state; a known type runs
the triggered/debounce logic of `update_notification_state` on that kind's
state.  Returns `(show, new_manager)`; `none` models the `TypeError` path
of the unreachable `triggered`-with-`None`-timestamp state. -/
def NotificationManager.should_show_notification (m : NotificationManager)
    (notification_type : String) (condition_met : Bool) (current_time : ℚ) :
    Option (Bool × NotificationManager) :=
  if notification_type ∉ knownNotificationTypes then
    some (false, m)
  else if notification_type = "switch_to_custom" then
    (update_notification_state m.switch_to_custom condition_met current_time).map
      (fun r => (r.1, { m with switch_to_custom := r.2 }))
  else if notification_type = "exceed_max_limit" then
    (update_notification_state m.exceed_max_limit condition_met current_time).map
      (fun r => (r.1, { m with exceed_max_limit := r.2 }))
  else
    (update_notification_state m.tokens_will_run_out condition_met current_time).map
      (fun r => (r.1, { m with tokens_will_run_out := r.2 }))

theorem burnRate_eq_filtered_sum (bs : List UsageBlock) (now : ℚ) :
    (bs.map (fun b => blockContribution b now)).sum
      = ((bs.filter (fun b => blockQualifies b now)).map
          (fun b => specContribution b now)).sum := by
  calc (bs.map (fun b => blockContribution b now)).sum
      = (bs.map (fun b =>
          if blockQualifies b now then specContribution b now else 0)).sum := by
        simp only [blockContribution_eq_ite]
    _ = _ := sum_map_ite _ _ bs

theorem burnRate_sum_nonneg (bs : List UsageBlock) (now : ℚ) :
    0 ≤ (bs.map (fun b => blockContribution b now)).sum := by
  apply List.sum_nonneg
  intro x hx
  simp only [List.mem_map] at hx
  obtain ⟨b, _, rfl⟩ := hx
  exact blockContribution_nonneg b now

theorem calculate_hourly_burn_rate_some (bs : List UsageBlock) (now : ℚ) :
    calculate_hourly_burn_rate (some bs) now
      = (1 / 60) *
        ((bs.filter (fun b => blockQualifies b now)).map
          (fun b => specContribution b now)).sum := by
  simp only [calculate_hourly_burn_rate]
  by_cases hbs : bs = []
  · subst hbs; simp
  · rw [if_neg hbs]
    by_cases hpos : 0 < (bs.map (fun b => blockContribution b now)).sum
    · rw [if_pos hpos, burnRate_eq_filtered_sum]
      ring
    · rw [if_neg hpos]
      have h0 : (bs.map (fun b => blockContribution b now)).sum = 0 :=
        le_antisymm (not_lt.mp hpos) (burnRate_sum_nonneg bs now)
      rw [← burnRate_eq_filtered_sum, h0, mul_zero]

/-- C1: for every (possibly `None`) list of blocks and timestamp `now`, the
hourly burn rate of `calculate_hourly_burn_rate` equals `1/60` times the sum
of `total_tokens * (overlap_minutes / total_duration_minutes)` over exactly
the blocks that qualify (have a start time, are not gaps, have effective end
no earlier than `now - 60min`, positive overlap with the window, and
positive total duration); and it is 0 when no block qualifies, in
particular for an empty or `None` block list. -/
theorem hourly_burn_rate_eq_spec_sum (blocks : Option (List UsageBlock))
    (now : ℚ) :
    calculate_hourly_burn_rate blocks now
      = (1 / 60) *
        (((blocks.getD []).filter (fun b => blockQualifies b now)).map
          (fun b => specContribution b now)).sum
    ∧ ((blocks.getD []).filter (fun b => blockQualifies b now) = [] →
        calculate_hourly_burn_rate blocks now = 0) := by
  have key : calculate_hourly_burn_rate blocks now
      = (1 / 60) *
        (((blocks.getD []).filter (fun b => blockQualifies b now)).map
          (fun b => specContribution b now)).sum := by
    cases blocks with
    | none => simp [calculate_hourly_burn_rate]
    | some bs => simpa using calculate_hourly_burn_rate_some bs now
  refine ⟨key, fun hempty => ?_⟩
  rw [key, hempty]
  simp

/-- Witness for the no-qualifying-block clause of C1: a singleton gap block
yields burn rate 0. -/
theorem hourly_burn_rate_eq_spec_sum_witness :
    calculate_hourly_burn_rate
        (some [⟨some 0, true, false, none, 500⟩]) 3600 = 0 := by
  apply (hourly_burn_rate_eq_spec_sum
    (some [⟨some 0, true, false, none, 500⟩]) 3600).2
  decide

/-- Counterexample to C2: a single active block that started 30 minutes ago
with 600 tokens.  The terminal layer prorates the block over the trailing
hour and reports `600 / 60 = 10` tokens/minute, while the web service layer
divides by the elapsed 30 minutes and reports `600 / 30 = 20`; the two
burn-rate functions are not equal. -/
theorem burn_rate_layers_differ_cex :
    calculate_hourly_burn_rate
        (some [⟨some 1800, false, true, none, 600⟩]) 3600
      ≠ MonitorService_calculate_hourly_burn_rate
        [⟨some 1800, false, true, none, 600⟩] 3600 := by
  norm_num [calculate_hourly_burn_rate, MonitorService_calculate_hourly_burn_rate,
    blockContribution, effectiveEnd, svcBurnStep]

/-- C2 amended: the two layers' burn-rate functions agree on an empty
snapshot — both return 0 for an empty (or, in the terminal layer, `None`)
block list — but they are distinct algorithms and differ on non-empty
inputs. -/
theorem burn_rate_layers_agree_on_empty (now : ℚ) :
    calculate_hourly_burn_rate (some []) now
        = MonitorService_calculate_hourly_burn_rate [] now
      ∧ calculate_hourly_burn_rate none now
        = MonitorService_calculate_hourly_burn_rate [] now := by
  constructor <;>
    simp [calculate_hourly_burn_rate, MonitorService_calculate_hourly_burn_rate]

/-- Counterexample to C3: plan `max5` (limit 220000), an active block with
225000 tokens, and a snapshot holding only that active block.  The terminal
auto-switch in `process_token_data` recomputes the `custom_max` limit, whose
scan skips active blocks and falls back to 44000, and adopts it without the
`new_limit > token_limit` guard of the service layer: the effective limit
shrinks from 220000 to 44000. -/
theorem process_token_data_shrinks_limit_cex :
    (process_token_data ⟨some 0, false, true, none, 225000⟩ Plan.max5
        (some [⟨some 0, false, true, none, 225000⟩])
        (get_token_limit Plan.max5 none)).token_limit
      < get_token_limit Plan.max5 none := by
  decide

/-- C3 amended: the WEB SERVICE layer's auto-switch evaluation
(`MonitorService.get_current_status`) never shrinks the limit — it adopts
the `custom_max` limit only when strictly greater — so its effective limit
is always at least the requested plan's limit for plans other than
`custom_max`; the terminal layer's `process_token_data` lacks that guard and
can shrink the limit. -/
theorem service_auto_switch_monotone (tokens_used : ℕ) (plan : Plan)
    (blocks : List UsageBlock) (hplan : plan ≠ Plan.custom_max) :
    MonitorService_get_token_limit plan none
      ≤ MonitorService_effective_limit tokens_used plan blocks := by
  simp only [MonitorService_effective_limit, if_neg hplan]
  split_ifs <;> omega

/-- Witness for C3 amended at plan `pro` with no usage and no blocks. -/
theorem service_auto_switch_monotone_witness :
    MonitorService_get_token_limit Plan.pro none
      ≤ MonitorService_effective_limit 0 Plan.pro [] :=
  service_auto_switch_monotone 0 Plan.pro [] (by decide)

/-- Counterexample to C4: a snapshot whose only block is a gap with 100
tokens.  No block qualifies under the claim's filter (`is_gap` false and
`is_active` false), so the claim demands the `pro` fallback; the web service
resolver instead scans ALL blocks, takes the gap's 100 tokens, applies the
10% buffer, and returns 110 — neither its own `pro` limit (7000) nor the
terminal's (44000). -/
theorem service_custom_limit_no_filter_cex :
    MonitorService_get_token_limit Plan.custom_max
        (some [⟨some 0, true, false, none, 100⟩])
      ≠ MonitorService_get_token_limit Plan.pro none
    ∧ MonitorService_get_token_limit Plan.custom_max
        (some [⟨some 0, true, false, none, 100⟩])
      ≠ get_token_limit Plan.pro none := by
  decide

/-- The spec's description of the custom resolver's scan: the maximum of
`total_tokens` over exactly the blocks with `is_gap` false and `is_active`
false (0 when none qualifies). -/
def specCustomMax (blocks : List UsageBlock) : ℕ :=
  ((blocks.filter (fun b => !b.isGap && !b.isActive)).map
    (fun b => b.totalTokens)).foldr max 0

theorem maxNonGapNonActive_eq_aux (blocks : List UsageBlock) :
    ∀ acc : ℕ,
      List.foldl
        (fun max_tokens b =>
          if ¬ b.isGap = true ∧ ¬ b.isActive = true ∧ max_tokens < b.totalTokens
          then b.totalTokens else max_tokens) acc blocks
      = max acc (specCustomMax blocks) := by
  induction blocks with
  | nil =>
    intro acc
    simp only [List.foldl_nil, specCustomMax, List.filter_nil, List.map_nil,
      List.foldr_nil]
    omega
  | cons b l ih =>
    intro acc
    rw [List.foldl_cons]
    by_cases hgap : b.isGap = true
    · have hfq : (!b.isGap && !b.isActive) = false := by simp [hgap]
      rw [if_neg (fun h => h.1 hgap), ih]
      simp [specCustomMax, List.filter_cons, hfq]
    · by_cases hact : b.isActive = true
      · have hfq : (!b.isGap && !b.isActive) = false := by simp [hact]
        rw [if_neg (fun h => h.2.1 hact), ih]
        simp [specCustomMax, List.filter_cons, hfq]
      · have hfq : (!b.isGap && !b.isActive) = true := by simp [hgap, hact]
        have hspec : specCustomMax (b :: l)
            = max b.totalTokens (specCustomMax l) := by
          simp [specCustomMax, List.filter_cons, hfq]
        by_cases hlt : acc < b.totalTokens
        · rw [if_pos ⟨hgap, hact, hlt⟩, ih, hspec]
          omega
        · rw [if_neg (fun h => hlt h.2.2), ih, hspec]
          omega

theorem maxNonGapNonActiveTokens_eq_spec (blocks : List UsageBlock) :
    maxNonGapNonActiveTokens blocks = specCustomMax blocks := by
  unfold maxNonGapNonActiveTokens
  rw [maxNonGapNonActive_eq_aux]
  omega

/-- C4 amended: the TERMINAL resolver `get_token_limit` behaves as the claim
states, with the terminal's own `pro` fallback of 44000: for `custom_max`
and a non-empty blocks list it returns the maximum `total_tokens` over
blocks with `is_gap` false and `is_active` false, and 44000 when no block
qualifies or the maximum is 0.  The web service resolver does not: it scans
all blocks and adds a 10% buffer. -/
theorem terminal_custom_limit_spec (bs : List UsageBlock) (hbs : bs ≠ []) :
    get_token_limit Plan.custom_max (some bs)
      = if 0 < specCustomMax bs then specCustomMax bs else 44000 := by
  unfold get_token_limit
  rw [if_pos ⟨rfl, by simpa using hbs⟩, maxNonGapNonActiveTokens_eq_spec]
  rfl

/-- Witness for C4 amended: one completed non-gap block with 500 tokens
resolves the custom limit to 500. -/
theorem terminal_custom_limit_spec_witness :
    get_token_limit Plan.custom_max
        (some [⟨some 0, false, false, none, 500⟩]) = 500 := by
  rw [terminal_custom_limit_spec _ (by decide)]
  decide

/-- Counterexample to C5: the terminal resolver's `pro` entry is 44000, not
the 7000 the claim names. -/
theorem pro_limit_not_7000_cex : get_token_limit Plan.pro none ≠ 7000 := by
  decide

/-- C5 amended: resolving the `pro` limit is constant — independent of the
blocks argument — in both layers, but the constants differ: 44000 in the
terminal resolver and 7000 in the web service resolver. -/
theorem pro_limit_constant (blocks blocks' : Option (List UsageBlock)) :
    get_token_limit Plan.pro blocks = 44000
      ∧ MonitorService_get_token_limit Plan.pro blocks' = 7000 := by
  constructor <;> simp [get_token_limit, MonitorService_get_token_limit]

/-- C6: with positive burn rate and positive tokens left, the predicted end
time is `now` plus `tokens_left / burn_rate` minutes (60 seconds each);
otherwise — in particular whenever the burn rate is 0 — it is exactly
`reset_time`. -/
theorem predicted_end_time_spec
    (current_time reset_time burn_rate tokens_left : ℚ) :
    (0 < burn_rate → 0 < tokens_left →
      calculate_predictions current_time reset_time burn_rate tokens_left
        = current_time + 60 * (tokens_left / burn_rate))
    ∧ (¬ (0 < burn_rate ∧ 0 < tokens_left) →
      calculate_predictions current_time reset_time burn_rate tokens_left
        = reset_time)
    ∧ (burn_rate = 0 →
      calculate_predictions current_time reset_time burn_rate tokens_left
        = reset_time) := by
  refine ⟨fun hb hl => ?_, fun h => ?_, fun h => ?_⟩
  · simp only [calculate_predictions, if_pos (And.intro hb hl)]
  · simp only [calculate_predictions, if_neg h]
  · simp only [calculate_predictions]
    rw [if_neg]
    rintro ⟨hb, -⟩
    rw [h] at hb
    exact lt_irrefl 0 hb

/-- Witness for C6, matching the spec's own examples: 1000 tokens left at
100 tokens/minute depletes 10 minutes (600 seconds) after `now = 0`; a zero
burn rate falls back to the reset time 99. -/
theorem predicted_end_time_spec_witness :
    calculate_predictions 0 99 100 1000 = 600
      ∧ calculate_predictions 0 99 0 1000 = 99 := by
  constructor
  · rw [(predicted_end_time_spec 0 99 100 1000).1 (by norm_num) (by norm_num)]
    norm_num
  · exact (predicted_end_time_spec 0 99 0 1000).2.2 rfl

/-- C7: from the initial untriggered state, a `true` condition at time `t`
reports show and stores timestamp `t`; a following `false` condition at
`t + δ` still reports show and leaves the state untouched when `δ < 5`
seconds, and reports no-show and clears the triggered flag and timestamp
when `δ ≥ 5` seconds. -/
theorem notification_debounce (t δ : ℚ) :
    update_notification_state initialNotificationState true t
        = some (true, ⟨true, some t⟩)
    ∧ update_notification_state ⟨true, some t⟩ false (t + δ)
        = (if δ < 5 then some (true, ⟨true, some t⟩)
           else some (false, ⟨false, none⟩)) := by
  constructor
  · rfl
  · have harith : t + δ - t = δ := by ring
    simp only [update_notification_state, Bool.false_eq_true, if_false, harith]
    by_cases hδ : δ < 5
    · rw [if_neg (not_le.mpr hδ), if_pos hδ]
      simp
    · rw [if_pos (not_lt.mp hδ), if_neg hδ]
      simp

/-- C8: a block whose total duration `effective_end - start_time` is zero or
negative contributes exactly 0 to the hourly burn rate (the guard skips it
before any division), and the burn rate is a total, nonnegative function of
arbitrary input — every division it performs is behind a
positive-denominator guard. -/
theorem burn_rate_division_guard :
    (∀ (b : UsageBlock) (now st : ℚ), b.startTime = some st →
      effectiveEnd b now - st ≤ 0 → blockContribution b now = 0)
    ∧ ∀ (blocks : Option (List UsageBlock)) (now : ℚ),
        0 ≤ calculate_hourly_burn_rate blocks now := by
  constructor
  · intro b now st hst hdur
    have hq : ¬ blockQualifies b now = true := by
      intro hq
      unfold blockQualifies at hq
      rw [hst] at hq
      simp only [decide_eq_true_eq] at hq
      have hpos := (div60_pos_iff _).mp hq.2.2.2
      linarith
    rw [blockContribution_eq_ite, if_neg hq]
  · intro blocks now
    cases blocks with
    | none => simp [calculate_hourly_burn_rate]
    | some bs =>
      rw [calculate_hourly_burn_rate_some, ← burnRate_eq_filtered_sum]
      exact mul_nonneg (by norm_num) (burnRate_sum_nonneg bs now)

/-- Witness for C8: a completed block that ends (at 3) before it starts
(at 5) contributes 0, and the burn rate over a snapshot holding it is
nonnegative. -/
theorem burn_rate_division_guard_witness :
    blockContribution ⟨some 5, false, false, some 3, 100⟩ 0 = 0
      ∧ 0 ≤ calculate_hourly_burn_rate
          (some [⟨some 5, false, false, some 3, 100⟩]) 0 := by
  constructor
  · exact burn_rate_division_guard.1 ⟨some 5, false, false, some 3, 100⟩ 0 5 rfl
      (by norm_num [effectiveEnd])
  · exact burn_rate_division_guard.2 (some [⟨some 5, false, false, some 3, 100⟩]) 0

/-- C9: `process_token_data` clamps the remaining-token count at zero:
`tokens_left = max(0, token_limit - tokens_used)` is nonnegative for every
active block, plan, snapshot, and incoming limit. -/
theorem tokens_left_nonneg (active_block : UsageBlock) (plan : Plan)
    (blocks : Option (List UsageBlock)) (token_limit : ℕ) :
    0 ≤ (process_token_data active_block plan blocks token_limit).tokens_left := by
  simp only [process_token_data]
  exact le_max_left 0 _

/-- C10: `NotificationManager.should_show_notification` with a notification
type outside the three known kinds returns `False` and returns the manager
with every stored state unchanged, for every condition value and
timestamp. -/
theorem unknown_notification_type_noop (notification_type : String)
    (h : notification_type ∉ knownNotificationTypes) (condition_met : Bool)
    (current_time : ℚ) (m : NotificationManager) :
    m.should_show_notification notification_type condition_met current_time
      = some (false, m) := by
  unfold NotificationManager.should_show_notification
  rw [if_pos h]

/-- Witness for C10 at the unknown type string `"bogus"` on the initial
manager. -/
theorem unknown_notification_type_noop_witness :
    (NotificationManager.mk initialNotificationState initialNotificationState
        initialNotificationState).should_show_notification "bogus" true 0
      = some (false, NotificationManager.mk initialNotificationState
          initialNotificationState initialNotificationState) :=
  unknown_notification_type_noop "bogus" (by decide) true 0 _
